import Mathlib

/-!
Verification development for the payments-demo backend (`server/node/routes.js`).

The file shallowly embeds the route handlers that the specification talks
about:

* the `/webhook` handler (signature verification, payment-intent event
  monitoring, `source.chargeable` confirmation, `source.failed`/`canceled`
  cancellation) as a pure function from the request and two oracles (the
  signature-verification primitive and the provider's intent-retrieve call)
  to an HTTP outcome together with the trace of provider calls and log lines;
* `calculatePaymentAmount` over a catalog snapshot;
* the provider-parameter construction of `POST /payment_intents`;
* the error paths of the provider-calling routes (which of them wrap the
  call in try/catch and which let a rejection escape).

Theorems at the end settle the specification's claims against these
definitions.
-/

/-- JS truthiness of an optional string value: `undefined` and the empty
string are falsy, every other string is truthy. -/
def truthyStr : Option String → Bool
  | none => false
  | some s => s != ""

/-- The `payment_method` / `source` object inside a payment intent's
`last_payment_error` (fields `object`, `id`, `type` read by the handler). -/
structure PMInfo where
  object : String
  id : String
  type : String
deriving Repr, DecidableEq

/-- A payment intent's `last_payment_error` field. Each sub-field models
the corresponding JS property, `none` standing for an absent/falsy value. -/
structure LastPaymentError where
  payment_method : Option PMInfo
  source : Option PMInfo
deriving Repr, DecidableEq

/-- A payment-intent object as embedded in a webhook event or returned by
the provider's retrieve call: the fields the handler reads. -/
structure PaymentIntentObj where
  id : String
  status : String
  last_payment_error : Option LastPaymentError
deriving Repr, DecidableEq

/-- A source object as embedded in a webhook event: the fields the handler
reads. `metadataPaymentIntent` is `object.metadata.paymentIntent` (a source
object always carries a metadata hash; `none` models an absent key). -/
structure SourceObj where
  id : String
  status : String
  metadataPaymentIntent : Option String
deriving Repr, DecidableEq

/-- The object embedded in a webhook event, discriminated the way the
handler does on the `object.object` kind tag. -/
inductive EventObject where
  | paymentIntent (pi : PaymentIntentObj)
  | source (s : SourceObj)
  | other (kind : String)
deriving Repr, DecidableEq

/-- A call issued to the payment provider by the webhook handler. -/
inductive ProviderCall where
  | retrieve (intentId : String)
  | confirm (intentId : String) (sourceId : String)
  | cancel (intentId : String)
deriving Repr, DecidableEq

/-- A provider call that mutates provider-side state (confirm or cancel;
retrieve is read-only). -/
def isMutatingCall : ProviderCall → Bool
  | .retrieve _ => false
  | .confirm _ _ => true
  | .cancel _ => true

/-- How a single webhook delivery ends: an HTTP status sent to the
provider, or an exception escaping the handler (no acknowledgement sent). -/
inductive HttpOutcome where
  | status (code : Nat)
  | thrown
deriving Repr, DecidableEq

/-- The observable effects of one webhook delivery: the HTTP outcome, the
ordered trace of provider calls, and the log lines written. -/
structure WebhookResult where
  outcome : HttpOutcome
  calls : List ProviderCall
  logs : List String
deriving Repr, DecidableEq

/-- A verified stripe event: its `type` tag and `event.data.object`. -/
structure StripeEvent where
  type : String
  object : EventObject
deriving Repr, DecidableEq

/-- The parts of the inbound HTTP request the webhook handler reads: the
raw body and signature header (used when a signing secret is configured)
and the parsed body's `type` / `data.object` (used otherwise). -/
structure WebhookRequest where
  rawBody : String
  signatureHeader : Option String
  bodyType : String
  bodyObject : EventObject

/-- Authentication step of the webhook handler (routes.js lines 163-186):
when a signing secret is configured, `stripe.webhooks.constructEvent`
(modelled by the `constructEvent` oracle; `none` is a verification
exception) checks the raw body against the signature header; otherwise the
parsed body is trusted directly. -/
def authenticate (webhookSecret : Option String)
    (constructEvent : String → Option String → String → Option StripeEvent)
    (req : WebhookRequest) : Except Unit (String × EventObject) :=
  match webhookSecret with
  | some secret =>
    if secret != "" then
      match constructEvent req.rawBody req.signatureHeader secret with
      | none => .error ()
      | some event => .ok (event.type, event.object)
    else
      .ok (req.bodyType, req.bodyObject)
  | none => .ok (req.bodyType, req.bodyObject)

/-- Log line for a succeeded payment intent (routes.js lines 193-195). -/
def succeededLog (piId : String) : String :=
  "Webhook received! Payment for PaymentIntent " ++ piId ++ " succeeded."

/-- Log line for a failed payment (routes.js lines 201-203). -/
def paymentFailedLog (pm : PMInfo) (piId : String) : String :=
  "Webhook received! Payment on " ++ pm.object ++ " " ++ pm.id ++ " of type "
    ++ pm.type ++ " for PaymentIntent " ++ piId ++ " failed."

/-- Log line for a chargeable source (routes.js line 216). -/
def chargeableLog (sourceId : String) : String :=
  "Webhook received! The source " ++ sourceId ++ " is chargeable."

/-- Log line for a failed or canceled source (routes.js line 236). -/
def sourceFailedLog (sourceId : String) : String :=
  "The source " ++ sourceId ++ " failed or timed out."

/-- Log line on a signature-verification failure (routes.js line 175). -/
def verificationFailedLog : String :=
  "Webhook signature verification failed."

/-- The payment-intent monitoring block (routes.js lines 190-207). On a
`payment_intent.payment_failed` event the handler dereferences
`paymentIntent.last_payment_error.payment_method` unconditionally, so a
missing `last_payment_error` (or a present one with neither sub-object)
raises a TypeError, modelled by `.error ()`. -/
def paymentIntentMonitor (eventType : String) (object : EventObject) :
    Except Unit (List String) :=
  match object with
  | .paymentIntent pi =>
    if eventType == "payment_intent.succeeded" then
      .ok [succeededLog pi.id]
    else if eventType == "payment_intent.payment_failed" then
      match pi.last_payment_error with
      | none => .error ()
      | some lpe =>
        match (match lpe.payment_method with
               | some pm => some pm
               | none => lpe.source) with
        | none => .error ()
        | some pm => .ok [paymentFailedLog pm pi.id]
    else
      .ok []
  | _ => .ok []

/-- The `source.failed` / `source.canceled` block plus the final 200
acknowledgement (routes.js lines 229-242): if the object is a source whose
status is in `['failed', 'canceled']` and whose metadata carries a (truthy)
payment-intent id, cancel that intent; in every case answer 200.
`calls1` / `logs1` are the trace accumulated by the earlier blocks. -/
def finishSource (s : SourceObj) (calls1 : List ProviderCall)
    (logs1 : List String) : WebhookResult :=
  if ["failed", "canceled"].contains s.status
      && truthyStr s.metadataPaymentIntent then
    match s.metadataPaymentIntent with
    | some piId =>
      ⟨.status 200, calls1 ++ [.cancel piId], logs1 ++ [sourceFailedLog s.id]⟩
    | none => ⟨.status 200, calls1, logs1⟩
  else
    ⟨.status 200, calls1, logs1⟩

/-- The `source.chargeable` block (routes.js lines 210-227) followed by the
rest of the handler. When the source is chargeable and correlated, the
handler retrieves the correlated intent; if its status is not
`requires_payment_method` it returns 403 immediately (no confirm, no
cancel), otherwise it confirms the retrieved intent with this source and
falls through to `finishSource`. -/
def handleSourceObject (s : SourceObj) (logs0 : List String)
    (retrieveIntent : String → PaymentIntentObj) : WebhookResult :=
  if s.status == "chargeable" && truthyStr s.metadataPaymentIntent then
    match s.metadataPaymentIntent with
    | some piId =>
      let logs1 := logs0 ++ [chargeableLog s.id]
      let pi := retrieveIntent piId
      if pi.status != "requires_payment_method" then
        ⟨.status 403, [.retrieve piId], logs1⟩
      else
        finishSource s [.retrieve piId, .confirm pi.id s.id] logs1
    | none => finishSource s [] logs0
  else
    finishSource s [] logs0

/-- The webhook handler after successful authentication (routes.js lines
187-242): the payment-intent monitoring block (which can throw), then the
two source blocks, then the 200 acknowledgement. -/
def handleAuthenticated (eventType : String) (object : EventObject)
    (retrieveIntent : String → PaymentIntentObj) : WebhookResult :=
  match paymentIntentMonitor eventType object with
  | .error _ => ⟨.thrown, [], []⟩
  | .ok logs0 =>
    match object with
    | .source s => handleSourceObject s logs0 retrieveIntent
    | _ => ⟨.status 200, [], logs0⟩

/-- The full `POST /webhook` handler (routes.js lines 160-243).
`constructEvent` models the provider's signature-verification primitive and
`retrieveIntent` the provider's `paymentIntents.retrieve` call. -/
def handleWebhook (webhookSecret : Option String)
    (constructEvent : String → Option String → String → Option StripeEvent)
    (retrieveIntent : String → PaymentIntentObj)
    (req : WebhookRequest) : WebhookResult :=
  match authenticate webhookSecret constructEvent req with
  | .error _ => ⟨.status 400, [], [verificationFailedLog]⟩
  | .ok (eventType, object) => handleAuthenticated eventType object retrieveIntent

/-- One line item of a basket: the `parent` product identifier and the
quantity (fields read by `calculatePaymentAmount`). -/
structure BasketItem where
  parent : String
  quantity : Int
deriving Repr, DecidableEq

/-- A sku of the catalog listing: its id and current price. -/
structure Sku where
  id : String
  price : Int
deriving Repr, DecidableEq

/-- A product of the catalog listing, carrying its skus. -/
structure Product where
  skus : List Sku
deriving Repr, DecidableEq

/-- The sku flattening of routes.js lines 44-47:
`productList.data.reduce((a, product) => [...a, ...product.skus.data], [])`. -/
def allSkus (productList : List Product) : List Sku :=
  productList.foldl (fun a product => a ++ product.skus) []

/-- The sku lookup of routes.js line 49:
`skus.filter(sku => sku.id === item.parent)[0]`, `none` when the filter
result is empty (indexing it then yields `undefined`). -/
def resolveSku (productList : List Product) (item : BasketItem) : Option Sku :=
  ((allSkus productList).filter (fun sku => sku.id == item.parent)).head?

/-- One step of the reduce in routes.js lines 48-51: on an already-thrown
accumulator the remaining steps never run (the reduce aborted), and an
unresolved sku throws a TypeError when `.price` is read off `undefined`. -/
def calcStep (productList : List Product) (acc : Except Unit Int)
    (item : BasketItem) : Except Unit Int :=
  match acc with
  | .error e => .error e
  | .ok a =>
    match resolveSku productList item with
    | none => .error ()
    | some sku => .ok (a + sku.price * item.quantity)

/-- `calculatePaymentAmount` (routes.js lines 41-53): reduce of `calcStep`
over the basket, starting from 0. -/
def calculatePaymentAmount (productList : List Product)
    (items : List BasketItem) : Except Unit Int :=
  items.foldl (calcStep productList) (.ok 0)

/-- One step of the specification-side sum (price of the resolved sku times
the quantity); an unresolved item contributes nothing here, which under the
all-items-resolve hypothesis never happens. -/
def basketStep (productList : List Product) (a : Int) (item : BasketItem) : Int :=
  match resolveSku productList item with
  | none => a
  | some sku => a + sku.price * item.quantity

/-- The total the specification describes: the sum over the basket of the
resolved sku's price times the item's quantity. -/
def basketTotal (productList : List Product) (items : List BasketItem) : Int :=
  items.foldl (basketStep productList) 0

/-- The body of a `POST /payment_intents` request (routes.js line 58).
`price` and `quantity` are JSON numbers, modelled as rationals. -/
structure CreateIntentRequest where
  currency : String
  price : Rat
  quantity : Rat
  productName : String
  campaignId : String
  productId : String
deriving Repr, DecidableEq

/-- The parameter object handed to `stripe.paymentIntents.create`
(routes.js lines 64-70). -/
structure PaymentIntentCreateParams where
  amount : Rat
  currency : String
  description : String
  metadataCampaignId : String
  metadataProductId : String
  metadataQuantity : Rat
  payment_method_types : List String
deriving Repr, DecidableEq

/-- The provider-parameter construction of `POST /payment_intents`
(routes.js lines 62-70): amount is `price * quantity * 100` and
`payment_method_types` is the configured list with `'au_becs_debit'`
filtered out. -/
def createIntentParams (configPaymentMethods : List String)
    (req : CreateIntentRequest) : PaymentIntentCreateParams :=
  let initPaymentMethods :=
    configPaymentMethods.filter (fun paymentMethod => paymentMethod != "au_becs_debit")
  { amount := req.price * req.quantity * 100
    currency := req.currency
    description := req.productName
    metadataCampaignId := req.campaignId
    metadataProductId := req.productId
    metadataQuantity := req.quantity
    payment_method_types := initPaymentMethods }

/-- A provider error as caught by the routes: the handler only reads its
`message`. -/
structure StripeError where
  message : String
deriving Repr, DecidableEq

/-- How a route answers once its provider call has settled: a 200 JSON
body, a 500 JSON body `\x7berror: err.message\x7d`, or an unhandled promise
rejection escaping the handler (no response produced by the route code). -/
inductive RouteOutcome (α : Type) where
  | status200 (body : α)
  | status500 (errorMessage : String)
  | unhandledRejection (message : String)
deriving Repr, DecidableEq

/-- `POST /payment_intents` result mapping (routes.js lines 61-75): the
single `stripe.paymentIntents.create` call sits in a try/catch whose catch
answers 500 with the provider's message. -/
def paymentIntentsCreateRoute {α : Type}
    (providerResult : Except StripeError α) : RouteOutcome α :=
  match providerResult with
  | .ok paymentIntent => .status200 paymentIntent
  | .error err => .status500 err.message

/-- `POST /payment_intents/:id/update_quantity` result mapping (routes.js
lines 82-91): same try/catch shape around `stripe.paymentIntents.update`. -/
def updateQuantityRoute {α : Type}
    (providerResult : Except StripeError α) : RouteOutcome α :=
  match providerResult with
  | .ok paymentIntent => .status200 paymentIntent
  | .error err => .status500 err.message

/-- `POST /payment_intents/:id/shipping_change` result mapping (routes.js
lines 135-142): the update call sits in a try/catch answering 500. -/
def shippingChangeRoute {α : Type}
    (providerResult : Except StripeError α) : RouteOutcome α :=
  match providerResult with
  | .ok paymentIntent => .status200 paymentIntent
  | .error err => .status500 err.message

/-- `POST /payment_intents/:id/update_currency` result mapping (routes.js
lines 148-156): the update call sits in a try/catch answering 500. -/
def updateCurrencyRoute {α : Type}
    (providerResult : Except StripeError α) : RouteOutcome α :=
  match providerResult with
  | .ok paymentIntent => .status200 paymentIntent
  | .error err => .status500 err.message

/-- `POST /create-checkout-session` result mapping (routes.js lines
96-127): the `stripe.checkout.sessions.create` call has no try/catch, so a
provider failure escapes the async handler as an unhandled rejection. -/
def createCheckoutSessionRoute {α : Type}
    (providerResult : Except StripeError α) : RouteOutcome α :=
  match providerResult with
  | .ok session => .status200 session
  | .error err => .unhandledRejection err.message

/-- `GET /payment_intents/:id/status` result mapping (routes.js lines
272-281): the `stripe.paymentIntents.retrieve` call has no try/catch, so a
provider failure escapes as an unhandled rejection. -/
def intentStatusRoute {α : Type}
    (providerResult : Except StripeError α) : RouteOutcome α :=
  match providerResult with
  | .ok paymentIntent => .status200 paymentIntent
  | .error err => .unhandledRejection err.message

/-- A signature-verification oracle that always fails (used as a concrete
instantiation in witnesses). -/
def alwaysRejectEvent : String → Option String → String → Option StripeEvent :=
  fun _ _ _ => none

/-- A provider retrieve oracle answering a fixed status, used as a concrete
instantiation in witnesses. -/
def constRetrieve (status : String) : String → PaymentIntentObj :=
  fun piId => ⟨piId, status, none⟩

/-- A concrete chargeable source correlated to intent `pi_1`. -/
def sampleChargeableSource : SourceObj :=
  ⟨"src_1", "chargeable", some "pi_1"⟩

/-- A concrete failed source correlated to intent `pi_1`. -/
def sampleFailedSource : SourceObj :=
  ⟨"src_2", "failed", some "pi_1"⟩

/-- A concrete webhook request carrying the given event in its parsed body
(the degraded, no-signing-secret delivery mode). -/
def bodyRequest (eventType : String) (object : EventObject) : WebhookRequest :=
  ⟨"raw-body", some "sig-header", eventType, object⟩

/- Helper lemmas about the webhook handler. -/

/-- On a source whose status is `chargeable`, the failed/canceled block is
a no-op: its membership test on `['failed', 'canceled']` is false. -/
theorem finishSource_of_chargeable (s : SourceObj) (calls1 : List ProviderCall)
    (logs1 : List String) (h : s.status = "chargeable") :
    finishSource s calls1 logs1 = ⟨.status 200, calls1, logs1⟩ := by
  simp [finishSource, h]

/-- The failed/canceled block either leaves the call trace unchanged or
appends a single cancel call. -/
theorem finishSource_calls_shape (s : SourceObj) (calls1 : List ProviderCall)
    (logs1 : List String) :
    (finishSource s calls1 logs1).calls = calls1 ∨
      ∃ x, (finishSource s calls1 logs1).calls = calls1 ++ [ProviderCall.cancel x] := by
  unfold finishSource
  split
  · split
    · exact Or.inr ⟨_, rfl⟩
    · exact Or.inl rfl
  · exact Or.inl rfl

/-- C2: when a signing secret is configured and signature verification of
the raw body against the signature header fails, the webhook handler
answers HTTP 400 with an empty provider-call trace — no retrieve, confirm,
cancel or update is attempted before the rejection. -/
theorem webhook_badSignature_rejected (secret : String)
    (constructEvent : String → Option String → String → Option StripeEvent)
    (retrieveIntent : String → PaymentIntentObj) (req : WebhookRequest)
    (hsec : secret ≠ "")
    (hfail : constructEvent req.rawBody req.signatureHeader secret = none) :
    handleWebhook (some secret) constructEvent retrieveIntent req =
      ⟨.status 400, [], [verificationFailedLog]⟩ := by
  have hb : (secret != "") = true := by simpa using hsec
  simp [handleWebhook, authenticate, hb, hfail]

/-- Witness for `webhook_badSignature_rejected` at a concrete secret,
request and always-failing verification oracle. -/
theorem webhook_badSignature_rejected_witness :
    handleWebhook (some "whsec_test") alwaysRejectEvent
        (constRetrieve "succeeded")
        (bodyRequest "source.chargeable" (.source sampleChargeableSource)) =
      ⟨.status 400, [], [verificationFailedLog]⟩ :=
  webhook_badSignature_rejected "whsec_test" alwaysRejectEvent
    (constRetrieve "succeeded")
    (bodyRequest "source.chargeable" (.source sampleChargeableSource))
    (by decide) rfl

/-- C7: an authenticated `payment_intent.succeeded` event produces no
provider call at all, only the success log line, and answers 200; the
handler being a pure function of the delivery, a second identical delivery
produces the identical observable effects. -/
theorem webhook_succeeded_only_logs (webhookSecret : Option String)
    (constructEvent : String → Option String → String → Option StripeEvent)
    (retrieveIntent : String → PaymentIntentObj) (req : WebhookRequest)
    (pi : PaymentIntentObj)
    (hauth : authenticate webhookSecret constructEvent req =
      .ok ("payment_intent.succeeded", .paymentIntent pi)) :
    handleWebhook webhookSecret constructEvent retrieveIntent req =
      ⟨.status 200, [], [succeededLog pi.id]⟩ := by
  unfold handleWebhook
  rw [hauth]
  simp [handleAuthenticated, paymentIntentMonitor]

/-- Witness for `webhook_succeeded_only_logs` at a concrete delivery in the
no-signing-secret mode. -/
theorem webhook_succeeded_only_logs_witness :
    handleWebhook none alwaysRejectEvent (constRetrieve "succeeded")
        (bodyRequest "payment_intent.succeeded"
          (.paymentIntent ⟨"pi_1", "succeeded", none⟩)) =
      ⟨.status 200, [], [succeededLog "pi_1"]⟩ :=
  webhook_succeeded_only_logs none alwaysRejectEvent (constRetrieve "succeeded")
    (bodyRequest "payment_intent.succeeded"
      (.paymentIntent ⟨"pi_1", "succeeded", none⟩))
    ⟨"pi_1", "succeeded", none⟩ rfl

/-- C10: an authenticated `payment_intent.payment_failed` event whose
payment-intent object has no `last_payment_error` makes the handler throw
(dereferencing `last_payment_error.payment_method` on `undefined`), so the
delivery ends without the 200 acknowledgement and without any provider
call. -/
theorem webhook_paymentFailed_throws (webhookSecret : Option String)
    (constructEvent : String → Option String → String → Option StripeEvent)
    (retrieveIntent : String → PaymentIntentObj) (req : WebhookRequest)
    (pi : PaymentIntentObj)
    (hauth : authenticate webhookSecret constructEvent req =
      .ok ("payment_intent.payment_failed", .paymentIntent pi))
    (hnone : pi.last_payment_error = none) :
    handleWebhook webhookSecret constructEvent retrieveIntent req =
      ⟨.thrown, [], []⟩ := by
  unfold handleWebhook
  rw [hauth]
  simp [handleAuthenticated, paymentIntentMonitor, hnone]

/-- Witness for `webhook_paymentFailed_throws` at a concrete delivery in
the no-signing-secret mode. -/
theorem webhook_paymentFailed_throws_witness :
    handleWebhook none alwaysRejectEvent (constRetrieve "succeeded")
        (bodyRequest "payment_intent.payment_failed"
          (.paymentIntent ⟨"pi_1", "requires_payment_method", none⟩)) =
      ⟨.thrown, [], []⟩ :=
  webhook_paymentFailed_throws none alwaysRejectEvent (constRetrieve "succeeded")
    (bodyRequest "payment_intent.payment_failed"
      (.paymentIntent ⟨"pi_1", "requires_payment_method", none⟩))
    ⟨"pi_1", "requires_payment_method", none⟩ rfl rfl

/-- Successful authentication reduces the webhook handler to the
post-authentication stage on the extracted event type and object. -/
theorem handleWebhook_ok (webhookSecret : Option String)
    (constructEvent : String → Option String → String → Option StripeEvent)
    (retrieveIntent : String → PaymentIntentObj) (req : WebhookRequest)
    (eventType : String) (object : EventObject)
    (hauth : authenticate webhookSecret constructEvent req =
      .ok (eventType, object)) :
    handleWebhook webhookSecret constructEvent retrieveIntent req =
      handleAuthenticated eventType object retrieveIntent := by
  unfold handleWebhook
  rw [hauth]

/-- On a source object the payment-intent monitoring block is a no-op, so
the post-authentication stage is the two source blocks. -/
theorem handleAuthenticated_source (eventType : String) (s : SourceObj)
    (retrieveIntent : String → PaymentIntentObj) :
    handleAuthenticated eventType (.source s) retrieveIntent =
      handleSourceObject s [] retrieveIntent := rfl

/-- C1: on an authenticated delivery whose object is a source with status
`chargeable` and whose metadata carries a correlated payment-intent id, the
handler retrieves that intent; if its status is not exactly
`requires_payment_method` it answers 403 with the retrieve as the only
provider call (no confirm), and if the status is exactly
`requires_payment_method` it confirms the retrieved intent with this
source's id and answers 200. -/
theorem webhook_chargeable_guard (webhookSecret : Option String)
    (constructEvent : String → Option String → String → Option StripeEvent)
    (retrieveIntent : String → PaymentIntentObj) (req : WebhookRequest)
    (eventType : String) (s : SourceObj) (piId : String)
    (hauth : authenticate webhookSecret constructEvent req =
      .ok (eventType, .source s))
    (hst : s.status = "chargeable")
    (hm : s.metadataPaymentIntent = some piId)
    (hpid : piId ≠ "") :
    handleWebhook webhookSecret constructEvent retrieveIntent req =
      if (retrieveIntent piId).status ≠ "requires_payment_method" then
        ⟨.status 403, [.retrieve piId], [chargeableLog s.id]⟩
      else
        ⟨.status 200, [.retrieve piId, .confirm (retrieveIntent piId).id s.id],
          [chargeableLog s.id]⟩ := by
  rw [handleWebhook_ok webhookSecret constructEvent retrieveIntent req
    eventType (.source s) hauth]
  rw [handleAuthenticated_source]
  unfold handleSourceObject
  have htr : truthyStr (some piId) = true := by
    simpa [truthyStr] using hpid
  rw [hst, hm]
  simp only [htr]
  by_cases hrq : (retrieveIntent piId).status = "requires_payment_method"
  · have hb : ((retrieveIntent piId).status != "requires_payment_method") = false := by
      simp [hrq]
    simp only [hb, hrq]
    simp [htr, finishSource_of_chargeable s _ _ hst, hrq]
  · have hb : ((retrieveIntent piId).status != "requires_payment_method") = true := by
      simpa using hrq
    simp [htr, hb, hrq]

/-- Witness for `webhook_chargeable_guard`, on the 403 side: the correlated
intent has already advanced to `succeeded`, so the delivery is refused with
only the retrieve call performed. -/
theorem webhook_chargeable_guard_witness :
    handleWebhook none alwaysRejectEvent (constRetrieve "succeeded")
        (bodyRequest "source.chargeable" (.source sampleChargeableSource)) =
      ⟨.status 403, [.retrieve "pi_1"], [chargeableLog "src_1"]⟩ := by
  have h := webhook_chargeable_guard none alwaysRejectEvent
    (constRetrieve "succeeded")
    (bodyRequest "source.chargeable" (.source sampleChargeableSource))
    "source.chargeable" sampleChargeableSource "pi_1" rfl rfl rfl (by decide)
  rw [h]
  simp [constRetrieve, sampleChargeableSource]

/-- C3: on an authenticated delivery whose object is a source with status
`failed` or `canceled` and whose metadata carries a correlated
payment-intent id, the handler issues exactly one provider call: a cancel
against that id — for every retrieve oracle, i.e. without consulting the
intent's current status. -/
theorem webhook_sourceFailed_cancels (webhookSecret : Option String)
    (constructEvent : String → Option String → String → Option StripeEvent)
    (retrieveIntent : String → PaymentIntentObj) (req : WebhookRequest)
    (eventType : String) (s : SourceObj) (piId : String)
    (hauth : authenticate webhookSecret constructEvent req =
      .ok (eventType, .source s))
    (hst : s.status = "failed" ∨ s.status = "canceled")
    (hm : s.metadataPaymentIntent = some piId)
    (hpid : piId ≠ "") :
    handleWebhook webhookSecret constructEvent retrieveIntent req =
      ⟨.status 200, [.cancel piId], [sourceFailedLog s.id]⟩ := by
  rw [handleWebhook_ok webhookSecret constructEvent retrieveIntent req
    eventType (.source s) hauth]
  rw [handleAuthenticated_source]
  unfold handleSourceObject
  have htr : truthyStr (some piId) = true := by
    simpa [truthyStr] using hpid
  have hch : (s.status == "chargeable") = false := by
    rcases hst with h | h <;> rw [h] <;> decide
  have hco : (["failed", "canceled"].contains s.status) = true := by
    rcases hst with h | h <;> rw [h] <;> decide
  simp [hch, finishSource, hco, htr, hm, hst]

/-- Witness for `webhook_sourceFailed_cancels` at a concrete failed source;
the retrieve oracle answers `succeeded`, showing no precondition on the
intent's status is consulted. -/
theorem webhook_sourceFailed_cancels_witness :
    handleWebhook none alwaysRejectEvent (constRetrieve "succeeded")
        (bodyRequest "source.failed" (.source sampleFailedSource)) =
      ⟨.status 200, [.cancel "pi_1"], [sourceFailedLog "src_2"]⟩ :=
  webhook_sourceFailed_cancels none alwaysRejectEvent (constRetrieve "succeeded")
    (bodyRequest "source.failed" (.source sampleFailedSource))
    "source.failed" sampleFailedSource "pi_1" rfl (Or.inl rfl) rfl (by decide)

/-- The call trace of the source blocks takes one of four shapes: empty, a
lone retrieve (the 403 refusal), a retrieve followed by the confirm, or a
lone cancel. -/
theorem handleSourceObject_calls_shape (s : SourceObj) (logs0 : List String)
    (retrieveIntent : String → PaymentIntentObj) :
    (handleSourceObject s logs0 retrieveIntent).calls = [] ∨
      (∃ x, (handleSourceObject s logs0 retrieveIntent).calls =
        [ProviderCall.retrieve x]) ∨
      (∃ x y z, (handleSourceObject s logs0 retrieveIntent).calls =
        [ProviderCall.retrieve x, ProviderCall.confirm y z]) ∨
      (∃ x, (handleSourceObject s logs0 retrieveIntent).calls =
        [ProviderCall.cancel x]) := by
  unfold handleSourceObject
  split
  case isTrue hcond =>
    have hst : s.status = "chargeable" := by
      have := (Bool.and_eq_true _ _).mp hcond
      exact beq_iff_eq.mp this.1
    split
    case h_1 piId heq =>
      dsimp only
      split
      case isTrue _ => exact Or.inr (Or.inl ⟨piId, rfl⟩)
      case isFalse _ =>
        rw [finishSource_of_chargeable s _ _ hst]
        exact Or.inr (Or.inr (Or.inl ⟨piId, _, _, rfl⟩))
    case h_2 heq =>
      rcases finishSource_calls_shape s [] logs0 with h | ⟨x, h⟩
      · exact Or.inl h
      · exact Or.inr (Or.inr (Or.inr ⟨x, by simpa using h⟩))
  case isFalse hcond =>
    rcases finishSource_calls_shape s [] logs0 with h | ⟨x, h⟩
    · exact Or.inl h
    · exact Or.inr (Or.inr (Or.inr ⟨x, by simpa using h⟩))

/-- The call trace of any authenticated delivery takes one of the four
shapes of `handleSourceObject_calls_shape`. -/
theorem handleAuthenticated_calls_shape (eventType : String)
    (object : EventObject) (retrieveIntent : String → PaymentIntentObj) :
    (handleAuthenticated eventType object retrieveIntent).calls = [] ∨
      (∃ x, (handleAuthenticated eventType object retrieveIntent).calls =
        [ProviderCall.retrieve x]) ∨
      (∃ x y z, (handleAuthenticated eventType object retrieveIntent).calls =
        [ProviderCall.retrieve x, ProviderCall.confirm y z]) ∨
      (∃ x, (handleAuthenticated eventType object retrieveIntent).calls =
        [ProviderCall.cancel x]) := by
  unfold handleAuthenticated
  cases hmon : paymentIntentMonitor eventType object with
  | error e => exact Or.inl rfl
  | ok logs0 =>
    cases object with
    | paymentIntent pi => exact Or.inl rfl
    | source s => exact handleSourceObject_calls_shape s logs0 retrieveIntent
    | other kind => exact Or.inl rfl

/-- C9: every single webhook delivery performs at most one provider-mutating
call (a confirm or a cancel), and never one of each: the confirm branch
fires only on a `chargeable` source and the cancel branch only on a
`failed`/`canceled` one. -/
theorem webhook_atMostOne_mutation (webhookSecret : Option String)
    (constructEvent : String → Option String → String → Option StripeEvent)
    (retrieveIntent : String → PaymentIntentObj) (req : WebhookRequest) :
    ((handleWebhook webhookSecret constructEvent retrieveIntent req).calls.countP
        isMutatingCall ≤ 1) ∧
      ¬ ((∃ i si, ProviderCall.confirm i si ∈
            (handleWebhook webhookSecret constructEvent retrieveIntent req).calls) ∧
         (∃ i, ProviderCall.cancel i ∈
            (handleWebhook webhookSecret constructEvent retrieveIntent req).calls)) := by
  unfold handleWebhook
  cases hauth : authenticate webhookSecret constructEvent req with
  | error e => simp
  | ok p =>
    obtain ⟨eventType, object⟩ := p
    rcases handleAuthenticated_calls_shape eventType object retrieveIntent with
      h | ⟨x, h⟩ | ⟨x, y, z, h⟩ | ⟨x, h⟩ <;>
      rw [h] <;> simp [isMutatingCall, List.countP_cons]

/-- When every item of the basket resolves, the reduce carries the running
total and never throws. -/
theorem calcStep_fold_ok (productList : List Product) :
    ∀ (items : List BasketItem) (a : Int),
      (∀ item ∈ items, (resolveSku productList item).isSome = true) →
      items.foldl (calcStep productList) (.ok a) =
        .ok (items.foldl (basketStep productList) a) := by
  intro items
  induction items with
  | nil => intro a _; rfl
  | cons i is ih =>
    intro a h
    have hi := h i (by simp)
    obtain ⟨sku, hsku⟩ := Option.isSome_iff_exists.mp hi
    simp only [List.foldl_cons, calcStep, basketStep, hsku]
    exact ih _ (fun item hmem => h item (by simp [hmem]))

/-- Once the reduce has thrown, the remaining steps keep the error. -/
theorem calcStep_fold_error (productList : List Product) :
    ∀ (items : List BasketItem),
      items.foldl (calcStep productList) (.error ()) = .error () := by
  intro items
  induction items with
  | nil => rfl
  | cons i is ih => simpa [calcStep] using ih

/-- A basket containing an unresolvable item makes the reduce throw,
whatever the running total was. -/
theorem calcStep_fold_unresolved (productList : List Product) :
    ∀ (items : List BasketItem) (a : Int),
      (∃ item ∈ items, resolveSku productList item = none) →
      items.foldl (calcStep productList) (.ok a) = .error () := by
  intro items
  induction items with
  | nil => intro a h; simp at h
  | cons i is ih =>
    intro a h
    cases hri : resolveSku productList i with
    | none =>
      simp only [List.foldl_cons, calcStep, hri]
      exact calcStep_fold_error productList is
    | some sku =>
      simp only [List.foldl_cons, calcStep, hri]
      rcases h with ⟨item, hmem, hnone⟩
      rcases List.mem_cons.mp hmem with heq | hmem'
      · rw [heq] at hnone
        rw [hnone] at hri
        cases hri
      · exact ih _ ⟨item, hmem', hnone⟩

/-- C4: for every catalog listing and basket, if every item resolves to a
sku then `calculatePaymentAmount` returns the sum over the basket of the
resolved sku's price times the item's quantity; and if some item resolves
to no sku it raises the lookup error instead of skipping the item. -/
theorem calculatePaymentAmount_spec (productList : List Product)
    (items : List BasketItem) :
    ((∀ item ∈ items, (resolveSku productList item).isSome = true) →
      calculatePaymentAmount productList items =
        .ok (basketTotal productList items)) ∧
    ((∃ item ∈ items, resolveSku productList item = none) →
      calculatePaymentAmount productList items = .error ()) := by
  constructor
  · intro h
    exact calcStep_fold_ok productList items 0 h
  · intro h
    exact calcStep_fold_unresolved productList items 0 h

/-- A concrete two-product catalog used by the amount-calculator witness. -/
def sampleCatalog : List Product :=
  [⟨[⟨"sku_a", 500⟩]⟩, ⟨[⟨"sku_b", 750⟩]⟩]

/-- A basket whose items all resolve in `sampleCatalog`. -/
def sampleBasketOk : List BasketItem :=
  [⟨"sku_a", 2⟩, ⟨"sku_b", 2⟩]

/-- A basket whose second item resolves to no sku of `sampleCatalog`. -/
def sampleBasketBad : List BasketItem :=
  [⟨"sku_a", 1⟩, ⟨"sku_missing", 1⟩]

/-- Witness for `calculatePaymentAmount_spec`: on the resolvable basket the
calculator returns 500·2 + 750·2 = 2500, and on the basket with an unknown
item it raises the lookup error. -/
theorem calculatePaymentAmount_spec_witness :
    calculatePaymentAmount sampleCatalog sampleBasketOk = .ok 2500 ∧
    calculatePaymentAmount sampleCatalog sampleBasketBad = .error () := by
  constructor
  · have h := (calculatePaymentAmount_spec sampleCatalog sampleBasketOk).1
      (by decide)
    rw [h]
    rfl
  · exact (calculatePaymentAmount_spec sampleCatalog sampleBasketBad).2
      (by decide)

/-- A concrete create-payment-intent request: price 10.00, quantity 2,
currency usd. -/
def sampleCreateRequest : CreateIntentRequest :=
  ⟨"usd", 10, 2, "widget", "camp_1", "prod_1"⟩

/-- C5: for every create-payment-intent request the amount handed to the
provider is `price * quantity * 100`; in particular price 10.00, quantity
2, currency usd requests 2000 minor units. -/
theorem createIntent_amount_spec (configPaymentMethods : List String)
    (req : CreateIntentRequest) :
    (createIntentParams configPaymentMethods req).amount =
        req.price * req.quantity * 100 ∧
      (createIntentParams ["card"] sampleCreateRequest).amount = 2000 := by
  constructor
  · rfl
  · norm_num [createIntentParams, sampleCreateRequest]

/-- C8: for every create-payment-intent request the payment-method types
handed to the provider are exactly the configured list with
`'au_becs_debit'` removed: the result is the filtered configured list, it
never contains `'au_becs_debit'`, it is a sublist of the configured list
(original order kept), and membership in it is membership in the
configured list minus the excluded method. -/
theorem createIntent_paymentMethods_spec (configPaymentMethods : List String)
    (req : CreateIntentRequest) :
    (createIntentParams configPaymentMethods req).payment_method_types =
        configPaymentMethods.filter (fun m => m != "au_becs_debit") ∧
      "au_becs_debit" ∉
        (createIntentParams configPaymentMethods req).payment_method_types ∧
      List.Sublist
        (createIntentParams configPaymentMethods req).payment_method_types
        configPaymentMethods ∧
      ∀ m, m ∈ (createIntentParams configPaymentMethods req).payment_method_types ↔
        (m ∈ configPaymentMethods ∧ m ≠ "au_becs_debit") := by
  refine ⟨rfl, ?_, ?_, ?_⟩
  · simp [createIntentParams, List.mem_filter]
  · exact List.filter_sublist configPaymentMethods
  · intro m
    simp [createIntentParams, List.mem_filter]

/-- C6 counterexample: a failing provider call in `/create-checkout-session`
(one of the create operations the claim quantifies over) is not surfaced as
a 500 response carrying the provider's message — the route wraps the call
in no try/catch, so the failure escapes as an unhandled rejection. -/
theorem checkoutSession_error_not500 :
    @createCheckoutSessionRoute Unit (.error ⟨"No such price"⟩) =
        .unhandledRejection "No such price" ∧
      @createCheckoutSessionRoute Unit (.error ⟨"No such price"⟩) ≠
        .status500 "No such price" := by
  constructor
  · rfl
  · intro h
    cases h

/-- C6 amended: a failing provider call in the try/catch-wrapped routes
(create payment intent, update_quantity, shipping_change, update_currency)
is surfaced to the HTTP caller as a 500 response whose body carries the
provider's message verbatim (never retried — each route issues the single
call whose settled outcome is consumed here — and never translated); a
failing provider call in `/create-checkout-session` or the status-retrieve
route instead escapes as an unhandled rejection. -/
theorem providerFailure_surfacing (err : StripeError) :
    @paymentIntentsCreateRoute Unit (.error err) = .status500 err.message ∧
      @updateQuantityRoute Unit (.error err) = .status500 err.message ∧
      @shippingChangeRoute Unit (.error err) = .status500 err.message ∧
      @updateCurrencyRoute Unit (.error err) = .status500 err.message ∧
      @createCheckoutSessionRoute Unit (.error err) =
        .unhandledRejection err.message ∧
      @intentStatusRoute Unit (.error err) = .unhandledRejection err.message :=
  ⟨rfl, rfl, rfl, rfl, rfl, rfl⟩
